import Mathlib

/-!
Verification development for the SuperBox-Infra repository.

The repository has two Python entry points:
  * `src/aws/lambda.py` — the persistent (WebSocket) variant: a module-global
    MCP child process and workspace directory are set up lazily on the first
    message of a connection and reused across invocations of the handler.
  * `src/lambda.py` — the single-shot (HTTP) variant: provision, spawn,
    write the request body via `communicate`, read until process exit.

Everything below is a shallow embedding of that code.  Pure string
manipulation (Python `str` methods used by the source) is embedded as
executable Lean functions on `List Char`/`String`.  The stateful handlers
are embedded as explicit state-passing step functions over a state record
mirroring the module globals (`_mcp_process`, `_repo_dir`,
`_connection_params`) plus an abstract filesystem of workspace trees and an
append-only effect trace recording the external calls the code makes
(metadata fetch, archive download, pip install, spawn, kill).  External
nondeterminism (network results, child process behaviour) is supplied per
event as an explicit oracle record.
-/

namespace SuperBox

/-! ## Pythonic string primitives

Faithful embeddings of the `str` methods the source uses:
`lower`, `rstrip("/")`, `strip("/")`, `replace(pat, rep)` (all
non-overlapping occurrences, left to right), the `in` substring test,
and `urllib.parse.unquote` (ASCII percent-decoding; multi-byte UTF-8
percent sequences do not occur in any claim and are decoded bytewise). -/

def pyLowerChar (c : Char) : Char := c.toLower

def pyLower (s : String) : String := (s.toList.map pyLowerChar).asString

def rstripSlashList (l : List Char) : List Char :=
  (l.reverse.dropWhile (fun c => c = '/')).reverse

def pyRstripSlash (s : String) : String := (rstripSlashList s.toList).asString

def pyStripSlash (s : String) : String :=
  ((s.toList.dropWhile (fun c => c = '/')).reverse.dropWhile
      (fun c => c = '/')).reverse.asString

def pyReplaceAux (pat rep : List Char) : Nat → List Char → List Char
  | _, [] => []
  | 0, l => l
  | fuel + 1, c :: cs =>
    if pat.isPrefixOf (c :: cs) then
      rep ++ pyReplaceAux pat rep fuel (List.drop (pat.length - 1) cs)
    else
      c :: pyReplaceAux pat rep fuel cs

def pyReplace (s pat rep : String) : String :=
  (pyReplaceAux pat.toList rep.toList s.toList.length s.toList).asString

def containsSubList (pat : List Char) : List Char → Bool
  | [] => pat.isEmpty
  | c :: cs => pat.isPrefixOf (c :: cs) || containsSubList pat cs

/-- Python `pat in s` substring test. -/
def pyIn (pat s : String) : Bool := containsSubList pat.toList s.toList

def hexVal (c : Char) : Option Nat :=
  if '0' ≤ c ∧ c ≤ '9' then some (c.toNat - '0'.toNat)
  else if 'a' ≤ c ∧ c ≤ 'f' then some (c.toNat - 'a'.toNat + 10)
  else if 'A' ≤ c ∧ c ≤ 'F' then some (c.toNat - 'A'.toNat + 10)
  else none

def pyUnquoteAux : List Char → List Char
  | '%' :: a :: b :: rest =>
    match hexVal a, hexVal b with
    | some x, some y => Char.ofNat (16 * x + y) :: pyUnquoteAux rest
    | _, _ => '%' :: pyUnquoteAux (a :: b :: rest)
  | c :: rest => c :: pyUnquoteAux rest
  | [] => []

def pyUnquote (s : String) : String := (pyUnquoteAux s.toList).asString

/-! ## JSON values and message bodies -/

/-- JSON values as produced by `json.loads`.  Field lists of objects are
association lists; `json.loads` yields unique keys, which all reachable
message objects satisfy. -/
inductive JVal where
  | null
  | jbool (b : Bool)
  | jnum (n : Int)
  | jstr (s : String)
  | jarr (elems : List JVal)
  | jobj (fields : List (String × JVal))
deriving Repr

/-- Python truthiness (`bool(v)`) of a parsed JSON value. -/
def jTruthy : JVal → Bool
  | .null => false
  | .jbool b => b
  | .jnum n => n ≠ 0
  | .jstr s => s ≠ ""
  | .jarr es => ¬ es.isEmpty
  | .jobj fs => ¬ fs.isEmpty

/-- An inbound transport body: either a string that `json.loads` rejects
(`raw`), or a parsed JSON object.  (A body that parses to a non-object
JSON value makes the Python source raise an uncaught `TypeError` or
`AttributeError` at the `in`/`pop` calls; no claim concerns that corner and
it is outside this domain.) -/
inductive Msg where
  | raw (s : String)
  | parsed (fields : List (String × JVal))
deriving Repr

def hasKeyB (fields : List (String × JVal)) (k : String) : Bool :=
  fields.any (fun kv => kv.1 == k)

def lookupKey (fields : List (String × JVal)) (k : String) : Option JVal :=
  (fields.find? (fun kv => kv.1 == k)).map (fun kv => kv.2)

def eraseKey (fields : List (String × JVal)) (k : String) :
    List (String × JVal) :=
  fields.filter (fun kv => kv.1 != k)

/-- The `try` block at the top of `handle_message` (src/aws/lambda.py
lines 82-93): parse the body, pop `_mcp_name` if present, add
`params: \x7b\x7d` to a `method`+`id` message lacking `params`, and
re-serialize.  A parse failure leaves the body untouched and the popped
name absent.  Returns (popped `_mcp_name` value, forwarded body). -/
def rewriteBody : Msg → Option JVal × Msg
  | .raw s => (none, .raw s)
  | .parsed fields =>
    let popped := lookupKey fields "_mcp_name"
    let fields1 := if hasKeyB fields "_mcp_name" then
        eraseKey fields "_mcp_name" else fields
    let fields2 :=
      if hasKeyB fields1 "method" && !(hasKeyB fields1 "params")
          && hasKeyB fields1 "id" then
        fields1 ++ [("params", JVal.jobj [])]
      else fields1
    (popped, .parsed fields2)

/-! ## Error kinds

The source signals every failure with a Python exception; the outbound
error envelope carries `type(e).__name__` and `str(e)`.  `PyErr` mirrors
the exception classes the source raises.  (`postError` stands for the
boto3 client exception raised when `post_to_connection` fails; its exact
class name is a boto3 detail abstracted here.) -/
inductive PyErr where
  | valueError (msg : String)
  | fileNotFoundError (msg : String)
  | genericException (msg : String)
  | brokenPipeError
  | postError
deriving Repr, DecidableEq

instance {α β : Type} [DecidableEq α] [DecidableEq β] :
    DecidableEq (Except α β) := fun x y =>
  match x, y with
  | .ok a, .ok b =>
    if h : a = b then .isTrue (by rw [h]) else .isFalse (by simp [h])
  | .error a, .error b =>
    if h : a = b then .isTrue (by rw [h]) else .isFalse (by simp [h])
  | .ok _, .error _ => .isFalse (by simp)
  | .error _, .ok _ => .isFalse (by simp)

def PyErr.typeName : PyErr → String
  | .valueError _ => "ValueError"
  | .fileNotFoundError _ => "FileNotFoundError"
  | .genericException _ => "Exception"
  | .brokenPipeError => "BrokenPipeError"
  | .postError => "PostError"

def PyErr.msg : PyErr → String
  | .valueError m => m
  | .fileNotFoundError m => m
  | .genericException m => m
  | .brokenPipeError => "Broken pipe"
  | .postError => "post_to_connection failed"

/-- Deployment metadata, either fetched from S3 or built directly from
query parameters in test mode. -/
structure Metadata where
  url : String
  entrypoint : String
  lang : String
deriving Repr, DecidableEq

/-! ## clone_repo URL computation

Both variants compute the archive URL identically
(src/lambda.py lines 112-116, src/aws/lambda.py lines 240-244):
reject a location without "github.com", else strip trailing slashes,
delete every occurrence of ".git", and append the fixed main-branch
archive path.  On rejection the error reason is wrapped into the
variant-specific `Exception` message by the caller. -/
def cloneRepoUrl (repoUrl : String) : Except String String :=
  if pyIn "github.com" repoUrl then
    .ok (pyReplace (pyRstripSlash repoUrl) ".git" ""
          ++ "/archive/refs/heads/main.zip")
  else
    .error "Only GitHub repositories are supported"

/-! ## start_server / run_server spawn checks (src/aws/lambda.py 190-217,
src/lambda.py 183-208)

`startServerM` models the spawn prelude over an explicit filesystem given
as the list of existing file paths.  `pyJoin` is `os.path.join` for a
two-component join: an absolute second component replaces the first. -/

def pyJoin (a b : String) : String :=
  if b.toList.head? = some '/' then b
  else if a = "" ∨ a.toList.getLast? = some '/' then a ++ b
  else a ++ "/" ++ b

structure SpawnedProc where
  cwd : String
  argvEntry : String
  stdinPipe : Bool
  stdoutPipe : Bool
  stderrPipe : Bool
deriving Repr, DecidableEq

def startServerM (fileSys : List String) (repoDir entrypoint lang : String) :
    Except PyErr SpawnedProc :=
  if pyLower lang ≠ "python" then
    .error (.valueError ("Unsupported language: " ++ lang))
  else
    let entryPath := pyJoin repoDir entrypoint
    if fileSys.contains entryPath then
      .ok { cwd := repoDir, argvEntry := entryPath,
            stdinPipe := true, stdoutPipe := true, stderrPipe := true }
    else
      .error (.fileNotFoundError ("Entrypoint not found: " ++ entrypoint))

/-! ## Single-shot variant (src/lambda.py)

One call = extract name from path, resolve metadata, clone, best-effort
install, spawn, `communicate(request_body, timeout=30)`.  External
behaviour (network results, child behaviour and how long each blocking
stage takes, in seconds) is the `ShotExt` oracle.  The result records the
HTTP outcome plus the observables the claims are about: everything written
to the child's stdin, whether the child was killed, whether it is still
running when the handler returns, and the wall-clock duration of the whole
call. -/

structure ShotEvent where
  rawPath : String
  path : String
  qp : List (String × String)
  body : String
deriving Repr

structure ShotExt where
  meta : Except PyErr Metadata
  metaDur : Nat
  cloneOk : Bool
  cloneDur : Nat
  hasRequirements : Bool
  installDur : Nat
  entryExists : Bool
  commDur : Nat
  stdout : String
  stderr : String
  returncode : Int
deriving Repr

inductive ShotBody where
  | okResp (resp : String)
  | errResp (typeName msg : String)
deriving Repr, DecidableEq

/-- External calls made by either variant, in order. -/
inductive Eff where
  | fetchMetaConn (name : Option String)
  | fetchMetaInband (v : JVal)
  | fetchMetaPath (name : String)
  | cloneCall (url : String)
  | fetchZip (zipUrl : String)
  | installDeps
  | spawnProc (pid : Nat)
  | killProc (pid : Nat)
deriving Repr

structure ShotRes where
  code : Nat
  body : ShotBody
  stdinWrites : List String
  killed : Bool
  runningAfter : Bool
  elapsed : Nat
  effects : List Eff
deriving Repr

def qpLookup (qp : List (String × String)) (k : String) : Option String :=
  (qp.find? (fun kv => kv.1 == k)).map (fun kv => kv.2)

/-- The `test_mode`+`repo_url` bypass condition, identical in both
variants (src/lambda.py lines 27-32, src/aws/lambda.py lines 106-109):
`test_mode` must compare (case-insensitively) to "true" and `repo_url`
must be a truthy string. -/
def isTestMode (qp : List (String × String)) : Bool :=
  (pyLower ((qpLookup qp "test_mode").getD "") == "true")
    && ((qpLookup qp "repo_url").getD "" != "")

/-- The descriptor built directly from query parameters in test mode
(src/lambda.py lines 33-39, src/aws/lambda.py lines 110-115). -/
def testModeMeta (qp : List (String × String)) : Metadata :=
  { url := pyUnquote ((qpLookup qp "repo_url").getD ""),
    entrypoint := (qpLookup qp "entrypoint").getD "main.py",
    lang := (qpLookup qp "lang").getD "python" }

/-- Python `"str".split("/")` on a character list. -/
def splitSlashAux : List Char → List Char → List (List Char)
  | [], acc => [acc.reverse]
  | '/' :: rest, acc => acc.reverse :: splitSlashAux rest []
  | c :: rest, acc => splitSlashAux rest (c :: acc)

/-- `extract_name` (src/lambda.py lines 75-88). -/
def extractName (ev : ShotEvent) : Except PyErr String :=
  let rawPath := if ev.rawPath ≠ "" then ev.rawPath else ev.path
  let parts := splitSlashAux (pyStripSlash rawPath).toList []
  let name := ((parts.getLast?).getD []).asString
  if name = "" then
    .error (.valueError "MCP server name not found in request path")
  else
    .ok name

def shotErr (e : PyErr) (writes : List String) (killed : Bool)
    (elapsed : Nat) (effs : List Eff) : ShotRes :=
  { code := 500, body := .errResp e.typeName e.msg, stdinWrites := writes,
    killed := killed, runningAfter := false, elapsed := elapsed,
    effects := effs }

/-- `lambda_handler` + `run_server` of src/lambda.py as one call.
The child is either killed (on the `communicate` timeout) or has exited
(`communicate` returns only after process exit), so `runningAfter` is
false on every path. -/
def singleShot (ev : ShotEvent) (ext : ShotExt) : ShotRes :=
  match extractName ev with
  | .error e => shotErr e [] false 0 []
  | .ok mcpName =>
    let (metaRes, metaEffs, metaT) :
        Except PyErr Metadata × List Eff × Nat :=
      if isTestMode ev.qp then
        (.ok (testModeMeta ev.qp), [], 0)
      else
        (ext.meta, [.fetchMetaPath mcpName], ext.metaDur)
    match metaRes with
    | .error e => shotErr e [] false metaT metaEffs
    | .ok md =>
      let effs1 := metaEffs ++ ([.cloneCall md.url] : List Eff)
      match cloneRepoUrl md.url with
      | .error reason =>
        shotErr (.genericException ("Failed to download repository: " ++ reason))
          [] false metaT effs1
      | .ok zipUrl =>
        let effs2 := effs1 ++ ([.fetchZip zipUrl] : List Eff)
        let t2 := metaT + ext.cloneDur
        if !ext.cloneOk then
          shotErr (.genericException "Failed to download repository: download error")
            [] false t2 effs2
        else
          let (effs3, t3) :=
            if ext.hasRequirements then
              (effs2 ++ ([.installDeps] : List Eff), t2 + min ext.installDur 180)
            else (effs2, t2)
          if pyLower md.lang ≠ "python" then
            shotErr (.valueError ("Unsupported language: " ++ md.lang
                ++ ". Only Python is supported currently.")) [] false t3 effs3
          else if !ext.entryExists then
            shotErr (.fileNotFoundError ("Entrypoint not found: " ++ md.entrypoint))
              [] false t3 effs3
          else
            let effs4 := effs3 ++ [.spawnProc 0]
            let writes := [ev.body]
            if 30 < ext.commDur then
              shotErr (.genericException "MCP server execution timed out after 30 seconds")
                writes true (t3 + 30) effs4
            else if ext.returncode ≠ 0 then
              shotErr (.genericException
                  ("Failed to execute MCP server: MCP server exited with code "
                    ++ toString ext.returncode)) writes false
                (t3 + ext.commDur) effs4
            else
              { code := 200, body := .okResp ext.stdout, stdinWrites := writes,
                killed := false, runningAfter := false,
                elapsed := t3 + ext.commDur, effects := effs4 }

/-! ## Persistent variant (src/aws/lambda.py)

Module globals become an explicit state record:
  * `connectionParams` — `_connection_params` (dict keyed by connectionId)
  * `proc`             — `_mcp_process` (a single shared `Popen` or `None`)
  * `repoDir`          — `_repo_dir`
  * `fs`               — the set of workspace trees on disk, identified by
    tokens drawn from `nextId`; one token stands for a whole `mkdtemp`
    tree, and removing it models `shutil.rmtree` on the parent temp
    directory
  * `effects`          — append-only trace of external calls.

The child's behaviour during one handler invocation is the `MsgExt`
oracle: whether the previously stored process is still alive at the
`poll()` check, the S3 fetch result, whether the archive download
succeeds, whether `requirements.txt` exists, whether the entrypoint file
exists, whether the freshly spawned child stays alive (a dead child makes
the pipe writes raise `BrokenPipeError`; stdin writes to a live child
succeed), the line `readline` returns during the handshake ("" models an
immediately closed stream), the response line to the user message, and
whether the two `post_to_connection` calls succeed. -/

/-- Everything `handle_message` writes to the child's stdin. -/
inductive WireMsg where
  | initReq
  | initNotif
  | user (m : Msg)
deriving Repr

def isUser : WireMsg → Bool
  | .user _ => true
  | _ => false

structure ProcState where
  pid : Nat
  alive : Bool
  log : List WireMsg
  wsDir : Nat
deriving Repr

structure St where
  connectionParams : List (String × List (String × String))
  proc : Option ProcState
  repoDir : Option Nat
  fs : List Nat
  nextId : Nat
  effects : List Eff
deriving Repr

def initSt : St :=
  { connectionParams := [], proc := none, repoDir := none, fs := [],
    nextId := 0, effects := [] }

structure MsgExt where
  prevProcAlive : Bool
  meta : Except PyErr Metadata
  cloneOk : Bool
  hasRequirements : Bool
  entryExists : Bool
  spawnAlive : Bool
  initLine : String
  replyLine : String
  postOk : Bool
  errPostOk : Bool
deriving Repr

inductive OutMsg where
  | reply (line : String)
  | errEnvelope (typeName msg : String)
deriving Repr, DecidableEq

structure Res where
  code : Nat
  sent : List OutMsg
deriving Repr

inductive Event where
  | connect (cid : String) (qp : List (String × String))
  | message (cid : String) (body : Msg) (ext : MsgExt)
  | disconnect (cid : String)

def cpLookup (m : List (String × List (String × String))) (cid : String) :
    Option (List (String × String)) :=
  (m.find? (fun kv => kv.1 == cid)).map (fun kv => kv.2)

def cpInsert (m : List (String × List (String × String))) (cid : String)
    (qp : List (String × String)) : List (String × List (String × String)) :=
  if m.any (fun kv => kv.1 == cid) then
    m.map (fun kv => if kv.1 == cid then (cid, qp) else kv)
  else
    m ++ [(cid, qp)]

/-- `handle_connect` (src/aws/lambda.py lines 37-57): store the query
parameters under the connection id; reject a missing/empty `name`. -/
def awsConnect (st : St) (cid : String) (qp : List (String × String)) :
    St × Res :=
  if (qpLookup qp "name").getD "" = "" then
    (st, { code := 400, sent := [] })
  else
    ({ st with connectionParams := cpInsert st.connectionParams cid qp },
      { code := 200, sent := [] })

/-- `handle_disconnect` (src/aws/lambda.py lines 60-72): kill the global
process if present; if `_repo_dir` is set and exists, remove its parent
temp tree and clear `_repo_dir`.  The `_connection_params` entry is not
touched. -/
def awsDisconnect (st : St) : St × Res :=
  let (proc2, killEffs) :=
    match st.proc with
    | some p => ((none : Option ProcState), ([Eff.killProc p.pid] : List Eff))
    | none => (none, [])
  let (fs2, repo2) :=
    match st.repoDir with
    | some d =>
      if d ∈ st.fs then (st.fs.filter (fun x => x ≠ d), (none : Option Nat))
      else (st.fs, some d)
    | none => (st.fs, none)
  ({ st with
      proc := proc2,
      repoDir := repo2,
      fs := fs2,
      effects := st.effects ++ killEffs },
    { code := 200, sent := [] })

/-- The `poll()` health check at src/aws/lambda.py line 95: a process that
was alive may have exited since the last invocation; a dead one never
revives. -/
def pollProc (prevAlive : Bool) : Option ProcState → Option ProcState
  | some p => some { p with alive := p.alive && prevAlive }
  | none => none

/-- The generic `except` handler of `handle_message` (lines 165-187):
best-effort post of the error envelope, status 500.  State is returned as
it was at the point of failure — no teardown happens here. -/
def errorReturn (st : St) (ext : MsgExt) (e : PyErr) : St × Res :=
  (st, { code := 500,
         sent := if ext.errPostOk then [.errEnvelope e.typeName e.msg] else [] })

/-- The warm path of `handle_message` (lines 148-163): forward the
(rewritten) body, read one response line, post it. -/
def warmRelay (st : St) (p : ProcState) (body2 : Msg) (ext : MsgExt) :
    St × Res :=
  let p2 := { p with log := p.log ++ [WireMsg.user body2] }
  let st2 := { st with proc := some p2 }
  if ext.postOk then
    (st2, { code := 200, sent := [.reply ext.replyLine] })
  else
    errorReturn st2 ext .postError

/-- Name resolution at the top of the cold start (lines 98-104): the
popped in-band `_mcp_name` value wins when truthy; otherwise the stored
connection parameters must exist (else `ValueError`), and their `name`
parameter is used.  `.ok (some v)` means the in-band value `v` is used;
`.ok none` means the connection-level `name`. -/
def resolveName (nameV : Option JVal) (qp : List (String × String)) :
    Except PyErr (Option JVal) :=
  match nameV with
  | some v =>
    if jTruthy v then .ok (some v)
    else if qp.isEmpty then
      .error (.valueError "MCP name not provided in message or connection params")
    else .ok none
  | none =>
    if qp.isEmpty then
      .error (.valueError "MCP name not provided in message or connection params")
    else .ok none

/-- The provisioning/spawn/handshake pipeline of the cold start
(lines 119-149), shared by the test-mode and the fetched-metadata paths:
clone, best-effort install, spawn, handshake, then fall through to the
relay.  Mutation order matches the source: `_repo_dir` is overwritten as
soon as the clone succeeds (leaking any previous workspace), and
`_mcp_process` is assigned before the handshake writes, so a child that
is already dead when the first handshake write raises `BrokenPipeError`
is left stored with an empty stdin log. -/
def coldProvision (st : St) (md : Metadata) (body2 : Msg) (ext : MsgExt) :
    St × Res :=
  let st2 := { st with effects := st.effects ++ ([.cloneCall md.url] : List Eff) }
  match cloneRepoUrl md.url with
  | .error reason =>
    errorReturn st2 ext (.genericException ("Clone failed: " ++ reason))
  | .ok zipUrl =>
    let st3 := { st2 with effects := st2.effects ++ ([.fetchZip zipUrl] : List Eff) }
    if !ext.cloneOk then
      errorReturn st3 ext (.genericException "Clone failed: download error")
    else
      let d := st3.nextId
      let st4 := { st3 with
          fs := st3.fs ++ [d],
          repoDir := some d,
          nextId := st3.nextId + 1 }
      let st5 := if ext.hasRequirements then
          { st4 with effects := st4.effects ++ ([.installDeps] : List Eff) }
        else st4
      if pyLower md.lang ≠ "python" then
        errorReturn st5 ext (.valueError ("Unsupported language: " ++ md.lang))
      else if !ext.entryExists then
        errorReturn st5 ext
          (.fileNotFoundError ("Entrypoint not found: " ++ md.entrypoint))
      else
        let pid := st5.nextId
        let st6 := { st5 with
            nextId := st5.nextId + 1,
            effects := st5.effects ++ ([.spawnProc pid] : List Eff) }
        if ext.spawnAlive then
          let p : ProcState :=
            { pid := pid, alive := true, wsDir := d,
              log := [.initReq, .initNotif, .user body2] }
          let st7 := { st6 with proc := some p }
          if ext.postOk then
            (st7, { code := 200, sent := [.reply ext.replyLine] })
          else
            errorReturn st7 ext .postError
        else
          let p : ProcState :=
            { pid := pid, alive := false, wsDir := d, log := [] }
          errorReturn { st6 with proc := some p } ext .brokenPipeError

/-- The cold-start path of `handle_message` (lines 95-149): resolve the
name (in-band value if truthy, else the stored connection parameters),
resolve metadata (test-mode bypass or S3 fetch), then provision and
spawn. -/
def coldStart (st : St) (cid : String) (nameV : Option JVal) (body2 : Msg)
    (ext : MsgExt) : St × Res :=
  let qp := (cpLookup st.connectionParams cid).getD []
  match resolveName nameV qp with
  | .error e => errorReturn st ext e
  | .ok inbandName =>
    if isTestMode qp then
      coldProvision st (testModeMeta qp) body2 ext
    else
      let st1 := { st with effects := st.effects ++
          [match inbandName with
           | some v => Eff.fetchMetaInband v
           | none => Eff.fetchMetaConn (qpLookup qp "name")] }
      match ext.meta with
      | .error e => errorReturn st1 ext e
      | .ok md => coldProvision st1 md body2 ext

/-- `handle_message` (src/aws/lambda.py lines 75-187). -/
def awsMessage (st : St) (cid : String) (body : Msg) (ext : MsgExt) :
    St × Res :=
  let (nameV, body2) := rewriteBody body
  let polled := pollProc ext.prevProcAlive st.proc
  let st0 := { st with proc := polled }
  match polled with
  | some p =>
    if p.alive then warmRelay st0 p body2 ext
    else coldStart st0 cid nameV body2 ext
  | none => coldStart st0 cid nameV body2 ext

/-- `lambda_handler` routing (src/aws/lambda.py lines 23-34). -/
def awsStep (st : St) : Event → St × Res
  | .connect cid qp => awsConnect st cid qp
  | .message cid body ext => awsMessage st cid body ext
  | .disconnect _ => awsDisconnect st

def runAws (evs : List Event) : St :=
  evs.foldl (fun s e => (awsStep s e).1) initSt

/-! ## Helper lemmas -/

theorem hasKeyB_eraseKey_self (fields : List (String × JVal)) (k : String) :
    hasKeyB (eraseKey fields k) k = false := by
  induction fields with
  | nil => rfl
  | cons kv rest ih =>
    by_cases h : kv.1 = k
    · simp only [eraseKey, List.filter_cons] at ih ⊢
      simp [h, ih]
    · simp [eraseKey, List.filter_cons, hasKeyB, h, ih]

theorem hasKeyB_eraseKey_ne (fields : List (String × JVal)) (k k2 : String)
    (h : (k2 == k) = false) :
    hasKeyB (eraseKey fields k2) k = hasKeyB fields k := by
  simp only [hasKeyB, eraseKey]
  induction fields with
  | nil => rfl
  | cons kv rest ih =>
    by_cases h1 : kv.1 = k2
    · have hk : (kv.1 == k) = false := by simpa [h1] using h
      rw [List.filter_cons, if_neg (by simp [h1]), List.any_cons, hk]
      simp [ih]
    · simp [List.filter_cons, h1, ih]

theorem hasKeyB_append (fields more : List (String × JVal)) (k : String) :
    hasKeyB (fields ++ more) k = (hasKeyB fields k || hasKeyB more k) := by
  simp [hasKeyB]

theorem eraseKey_of_not_has (fields : List (String × JVal)) (k : String)
    (h : hasKeyB fields k = false) : eraseKey fields k = fields := by
  induction fields with
  | nil => rfl
  | cons kv rest ih =>
    simp only [hasKeyB, List.any_cons, Bool.or_eq_false_iff] at h
    have h1 : ¬ kv.1 = k := by
      intro hk
      simp [hk] at h
    have h2 : eraseKey rest k = rest := ih h.2
    simp only [eraseKey, List.filter_cons] at h2 ⊢
    simp [h1, h2]

/-- The first branch of the rewrite always yields the `_mcp_name`-erased
field list, whether or not the key was present. -/
theorem rewriteBody_fields1 (fields : List (String × JVal)) :
    (if hasKeyB fields "_mcp_name" then eraseKey fields "_mcp_name" else fields)
      = eraseKey fields "_mcp_name" := by
  cases h : hasKeyB fields "_mcp_name" with
  | true => simp [h]
  | false =>
    simp only [h, Bool.false_eq_true, if_false]
    exact (eraseKey_of_not_has fields "_mcp_name" h).symm

def msgFieldsOf : Msg → List (String × JVal)
  | .raw _ => []
  | .parsed fields => fields

/-! ## Claim theorems -/

/-- Claim C7 (confirmed): `spawn` fails with the unsupported-language
error (`ValueError`, the code's rendering of `UnsupportedLanguage`) when
the descriptor's language is not Python (compared case-insensitively),
fails with the missing-entrypoint error (`FileNotFoundError`, the code's
`EntrypointMissing`) when the resolved entrypoint path does not exist
under the workspace, and otherwise launches the entrypoint as a child
process whose working directory is the workspace with stdin, stdout and
stderr captured as pipes (src/aws/lambda.py lines 190-217; the
single-shot `run_server` performs the same checks and `Popen` call at
src/lambda.py lines 183-208). -/
theorem c7_spawn_checks (fileSys : List String)
    (repoDir entrypoint lang : String) :
    (pyLower lang ≠ "python" →
      startServerM fileSys repoDir entrypoint lang =
        .error (.valueError ("Unsupported language: " ++ lang)))
    ∧ (pyLower lang = "python" →
        fileSys.contains (pyJoin repoDir entrypoint) = false →
        startServerM fileSys repoDir entrypoint lang =
          .error (.fileNotFoundError ("Entrypoint not found: " ++ entrypoint)))
    ∧ (pyLower lang = "python" →
        fileSys.contains (pyJoin repoDir entrypoint) = true →
        startServerM fileSys repoDir entrypoint lang =
          .ok { cwd := repoDir, argvEntry := pyJoin repoDir entrypoint,
                stdinPipe := true, stdoutPipe := true, stderrPipe := true }) := by
  refine ⟨fun h => ?_, fun h1 h2 => ?_, fun h1 h2 => ?_⟩
  · simp [startServerM, h]
  · have h2m : pyJoin repoDir entrypoint ∉ fileSys := by simpa using h2
    simp [startServerM, h1, h2m]
  · have h2m : pyJoin repoDir entrypoint ∈ fileSys := by simpa using h2
    simp [startServerM, h1, h2m]

/-- Witness for C7: the three branches at concrete inputs — a Ruby
descriptor is rejected, a Python descriptor with an absent entrypoint is
rejected, and a mixed-case "Python" descriptor with the file present
spawns with the workspace as working directory and all three stdio
pipes. -/
theorem c7_spawn_checks_witness :
    startServerM [] "/tmp/w/repo" "main.py" "ruby" =
      .error (.valueError "Unsupported language: ruby")
    ∧ startServerM [] "/tmp/w/repo" "main.py" "python" =
      .error (.fileNotFoundError "Entrypoint not found: main.py")
    ∧ startServerM ["/tmp/w/repo/main.py"] "/tmp/w/repo" "main.py" "Python" =
      .ok { cwd := "/tmp/w/repo", argvEntry := "/tmp/w/repo/main.py",
            stdinPipe := true, stdoutPipe := true, stderrPipe := true } :=
  ⟨(c7_spawn_checks [] "/tmp/w/repo" "main.py" "ruby").1 (by decide),
   (c7_spawn_checks [] "/tmp/w/repo" "main.py" "python").2.1 (by decide) (by decide),
   by
     have := (c7_spawn_checks ["/tmp/w/repo/main.py"] "/tmp/w/repo" "main.py"
       "Python").2.2 (by decide) (by decide)
     simpa [pyJoin] using this⟩

/-- Claim C10 (confirmed): for every repository location the provisioner
accepts (one containing "github.com"), the archive URL it fetches is
exactly the input with trailing "/" characters stripped, every occurrence
of ".git" removed, and "/archive/refs/heads/main.zip" appended — so only
the `main` branch is ever fetched, and a location containing ".git"
elsewhere in its name is mangled (witness: "my.gitrepo" becomes
"myrepo").  Locations without "github.com" are rejected
(src/lambda.py lines 106-140, src/aws/lambda.py lines 234-262). -/
theorem c10_clone_url (url : String) :
    (pyIn "github.com" url = true →
      cloneRepoUrl url =
        .ok (pyReplace (pyRstripSlash url) ".git" ""
              ++ "/archive/refs/heads/main.zip"))
    ∧ (pyIn "github.com" url = false →
        cloneRepoUrl url = .error "Only GitHub repositories are supported")
    ∧ (∀ zu, cloneRepoUrl url = .ok zu →
        ∃ pre, zu = pre ++ "/archive/refs/heads/main.zip") := by
  refine ⟨fun h => ?_, fun h => ?_, fun zu h => ?_⟩
  · simp [cloneRepoUrl, h]
  · simp [cloneRepoUrl, h]
  · unfold cloneRepoUrl at h
    by_cases hg : pyIn "github.com" url
    · simp [hg] at h
      exact ⟨pyReplace (pyRstripSlash url) ".git" "", h.symm⟩
    · simp [hg] at h

/-! ## Single-shot path lemmas -/

/-- Success path of the single-shot call through the test-mode descriptor:
everything written to the child's stdin is exactly the request body, and
the wall-clock duration is the metadata time (zero here) plus the clone
duration plus the child's execution time — the 30-second `communicate`
timeout bounds only the last summand. -/
theorem singleShot_ok (ev : ShotEvent) (ext : ShotExt) (nm : String)
    (md : Metadata) (zu : String)
    (h1 : extractName ev = .ok nm)
    (h2 : isTestMode ev.qp = true)
    (h3 : testModeMeta ev.qp = md)
    (h4 : cloneRepoUrl md.url = .ok zu)
    (h5 : ext.cloneOk = true)
    (h6 : ext.hasRequirements = false)
    (h7 : pyLower md.lang = "python")
    (h8 : ext.entryExists = true)
    (h9 : ext.commDur ≤ 30)
    (h10 : ext.returncode = 0) :
    singleShot ev ext =
      { code := 200, body := .okResp ext.stdout, stdinWrites := [ev.body],
        killed := false, runningAfter := false,
        elapsed := 0 + ext.cloneDur + ext.commDur,
        effects := [.cloneCall md.url, .fetchZip zu, .spawnProc 0] } := by
  simp only [singleShot, h1, h2, h3, h4, h5, h6, h7, h8, h10, if_true,
    Bool.not_true]
  simp [Nat.not_lt.mpr h9]

/-- Timeout path of the single-shot call: once `communicate` exceeds the
30-second limit the child is killed, the handler reports the timeout
exception, and the child is not left running. -/
theorem singleShot_timeout (ev : ShotEvent) (ext : ShotExt) (nm : String)
    (md : Metadata) (zu : String)
    (h1 : extractName ev = .ok nm)
    (h2 : isTestMode ev.qp = true)
    (h3 : testModeMeta ev.qp = md)
    (h4 : cloneRepoUrl md.url = .ok zu)
    (h5 : ext.cloneOk = true)
    (h7 : pyLower md.lang = "python")
    (h8 : ext.entryExists = true)
    (h9 : 30 < ext.commDur) :
    (singleShot ev ext).code = 500
    ∧ (singleShot ev ext).body =
        .errResp "Exception" "MCP server execution timed out after 30 seconds"
    ∧ (singleShot ev ext).stdinWrites = [ev.body]
    ∧ (singleShot ev ext).killed = true
    ∧ (singleShot ev ext).runningAfter = false := by
  cases h6 : ext.hasRequirements with
  | false =>
    simp only [singleShot, h1, h2, h3, h4, h5, h6, h7, h8, if_true,
      Bool.not_true]
    simp [h9, shotErr, PyErr.typeName, PyErr.msg]
  | true =>
    simp only [singleShot, h1, h2, h3, h4, h5, h6, h7, h8, if_true,
      Bool.not_true]
    simp [h9, shotErr, PyErr.typeName, PyErr.msg]

/-! ## Concrete single-shot inputs used by counterexamples and witnesses -/

/-- A single-shot request carrying the claim C5 round-trip body
(`method`+`id`, no `params`), in test mode against a GitHub location. -/
def ssPingEvent : ShotEvent :=
  { rawPath := "/prod/alpha", path := "",
    qp := [("test_mode", "true"), ("repo_url", "https://github.com/u/r")],
    body := "\x7b\"jsonrpc\":\"2.0\",\"id\":1,\"method\":\"ping\"\x7d" }

/-- External behaviour: provisioning succeeds quickly, the child exits
normally within the timeout. -/
def ssExtFast : ShotExt :=
  { meta := .error (.valueError "unused"), metaDur := 0, cloneOk := true,
    cloneDur := 2, hasRequirements := false, installDur := 0,
    entryExists := true, commDur := 3, stdout := "resp", stderr := "",
    returncode := 0 }

/-- On every single-shot run that reaches `Popen`, the only content
written to the child's stdin is the request body itself, whatever the
child then does (normal exit, nonzero exit, or timeout). -/
theorem singleShot_writes (ev : ShotEvent) (ext : ShotExt) (nm : String)
    (md : Metadata) (zu : String)
    (h1 : extractName ev = .ok nm)
    (h2 : isTestMode ev.qp = true)
    (h3 : testModeMeta ev.qp = md)
    (h4 : cloneRepoUrl md.url = .ok zu)
    (h5 : ext.cloneOk = true)
    (h7 : pyLower md.lang = "python")
    (h8 : ext.entryExists = true) :
    (singleShot ev ext).stdinWrites = [ev.body] := by
  cases h6 : ext.hasRequirements with
  | false =>
    simp only [singleShot, h1, h2, h3, h4, h5, h6, h7, h8]
    repeat' split
    all_goals simp_all [shotErr]
  | true =>
    simp only [singleShot, h1, h2, h3, h4, h5, h6, h7, h8]
    repeat' split
    all_goals simp_all [shotErr]

/-- Claim C2 as stated: every single-shot call is bounded by one hard
wall-clock timeout covering the entire provision+spawn+handshake+respond
sequence, and an expired timeout means the child was killed, the timeout
error was returned, and the child is not running afterwards. -/
def c2Stated : Prop :=
  (∃ T, ∀ ev ext, (singleShot ev ext).elapsed ≤ T)
  ∧ (∀ ev ext, (singleShot ev ext).killed = true →
      (singleShot ev ext).body =
        .errResp "Exception" "MCP server execution timed out after 30 seconds"
      ∧ (singleShot ev ext).runningAfter = false)

/-- Claim C2 counterexample: no wall-clock bound covers the whole
single-shot sequence, because the repository download
(`urllib.request.urlretrieve` in `clone_repo`, src/lambda.py line 119) has
no timeout at all: for any alleged bound `T`, a call whose clone phase
takes `T + 31` seconds still succeeds, so the claim as stated is false.
Only the `communicate` phase (src/lambda.py line 210) is bounded, by 30
seconds. -/
theorem c2_counterexample : ¬ c2Stated := by
  rintro ⟨⟨T, hT⟩, _⟩
  have hrun := singleShot_ok ssPingEvent { ssExtFast with cloneDur := T + 31 }
    "alpha" (testModeMeta ssPingEvent.qp)
    "https://github.com/u/r/archive/refs/heads/main.zip"
    (by decide) (by decide) rfl (by decide) rfl rfl (by decide) rfl
    (by simp [ssExtFast]) rfl
  have hle := hT ssPingEvent { ssExtFast with cloneDur := T + 31 }
  rw [hrun] at hle
  simp only [] at hle
  omega

/-- Claim C2 (amended): the single-shot variant enforces the hard
30-second timeout only around the child-process execution phase
(`process.communicate`): provisioning (the archive download) is unbounded.
When that execution timeout expires the child process is forcibly killed
(`process.kill()`), the call returns the timeout error envelope with
status 500, and the process is not left running (src/lambda.py
lines 200-224). -/
theorem c2_timeout_kills (ev : ShotEvent) (ext : ShotExt) (nm : String)
    (md : Metadata) (zu : String)
    (h1 : extractName ev = .ok nm)
    (h2 : isTestMode ev.qp = true)
    (h3 : testModeMeta ev.qp = md)
    (h4 : cloneRepoUrl md.url = .ok zu)
    (h5 : ext.cloneOk = true)
    (h7 : pyLower md.lang = "python")
    (h8 : ext.entryExists = true)
    (h9 : 30 < ext.commDur) :
    (singleShot ev ext).code = 500
    ∧ (singleShot ev ext).body =
        .errResp "Exception" "MCP server execution timed out after 30 seconds"
    ∧ (singleShot ev ext).killed = true
    ∧ (singleShot ev ext).runningAfter = false :=
  have h := singleShot_timeout ev ext nm md zu h1 h2 h3 h4 h5 h7 h8 h9
  ⟨h.1, h.2.1, h.2.2.2.1, h.2.2.2.2⟩

/-- Witness for the amended C2 at a concrete hung child
(`commDur = 10000`): the call reports the timeout, the child is killed and
not left running. -/
theorem c2_timeout_kills_witness :
    (singleShot ssPingEvent { ssExtFast with commDur := 10000 }).code = 500
    ∧ (singleShot ssPingEvent { ssExtFast with commDur := 10000 }).body =
        .errResp "Exception" "MCP server execution timed out after 30 seconds"
    ∧ (singleShot ssPingEvent { ssExtFast with commDur := 10000 }).killed = true
    ∧ (singleShot ssPingEvent
        { ssExtFast with commDur := 10000 }).runningAfter = false :=
  c2_timeout_kills ssPingEvent { ssExtFast with commDur := 10000 } "alpha"
    (testModeMeta ssPingEvent.qp)
    "https://github.com/u/r/archive/refs/heads/main.zip"
    (by decide) (by decide) rfl (by decide) rfl (by decide) rfl (by decide)

/-! ## Persistent-variant handshake discipline

The stdin log of any live child process in the persistent variant is
either empty (the spawned child was already dead, so the very first
handshake write raised `BrokenPipeError` and nothing was delivered) or
starts with exactly the `initialize` request followed by the
`notifications/initialized` notification, with only user messages after
them. -/
def HandshakeDiscipline (log : List WireMsg) : Prop :=
  log = [] ∨ ∃ us, log = WireMsg.initReq :: WireMsg.initNotif :: us
    ∧ ∀ m ∈ us, isUser m = true

/-- Inductive invariant: the current process (if any) obeys the handshake
discipline, and a live process has a nonempty stdin log (it received its
handshake). -/
def InvSt (st : St) : Prop :=
  ∀ p, st.proc = some p →
    HandshakeDiscipline p.log ∧ (p.alive = true → p.log ≠ [])

theorem handshakeDiscipline_append_user (log : List WireMsg) (m : Msg)
    (h : HandshakeDiscipline log) (hne : log ≠ []) :
    HandshakeDiscipline (log ++ [WireMsg.user m]) := by
  rcases h with h | ⟨us, hus, hall⟩
  · exact absurd h hne
  · refine Or.inr ⟨us ++ [WireMsg.user m], by rw [hus]; simp, ?_⟩
    intro x hx
    rcases List.mem_append.mp hx with hx | hx
    · exact hall x hx
    · simp at hx
      rw [hx]
      rfl

theorem inv_pollProc (b : Bool) (st : St) (h : InvSt st) :
    InvSt { st with proc := pollProc b st.proc } := by
  intro p hp
  cases hq : st.proc with
  | none => simp [pollProc, hq] at hp
  | some q =>
    simp only [pollProc, hq, Option.some.injEq] at hp
    rcases h q hq with ⟨h1, h2⟩
    rw [← hp]
    refine ⟨h1, fun ha => h2 ?_⟩
    have ha2 : (q.alive && b) = true := by simpa using ha
    cases hqa : q.alive with
    | true => rfl
    | false => rw [hqa] at ha2; simp at ha2

theorem warmRelay_proc (st : St) (p : ProcState) (b2 : Msg) (ext : MsgExt) :
    (warmRelay st p b2 ext).1.proc =
      some { p with log := p.log ++ [WireMsg.user b2] } := by
  unfold warmRelay errorReturn
  split <;> rfl

theorem coldProvision_proc_cases (st : St) (md : Metadata) (b2 : Msg)
    (ext : MsgExt) :
    (coldProvision st md b2 ext).1.proc = st.proc
    ∨ (∃ pid d, (coldProvision st md b2 ext).1.proc =
        some { pid := pid, alive := true, wsDir := d,
               log := [.initReq, .initNotif, .user b2] })
    ∨ (∃ pid d, (coldProvision st md b2 ext).1.proc =
        some { pid := pid, alive := false, wsDir := d, log := [] }) := by
  unfold coldProvision errorReturn
  split
  · exact Or.inl rfl
  · cases hc : ext.cloneOk with
    | false => exact Or.inl rfl
    | true =>
      cases hreq : ext.hasRequirements <;>
        ( dsimp only
          by_cases hl : pyLower md.lang = "python"
          · rw [if_neg (show ¬ pyLower md.lang ≠ "python" from fun hne => hne hl)]
            cases he : ext.entryExists
            · exact Or.inl rfl
            · cases hs : ext.spawnAlive
              · exact Or.inr (Or.inr ⟨_, _, rfl⟩)
              · cases hpk : ext.postOk
                · exact Or.inr (Or.inl ⟨_, _, rfl⟩)
                · exact Or.inr (Or.inl ⟨_, _, rfl⟩)
          · rw [if_pos (show pyLower md.lang ≠ "python" from hl)]
            exact Or.inl rfl )

theorem coldStart_proc_cases (st : St) (cid : String) (nv : Option JVal)
    (b2 : Msg) (ext : MsgExt) :
    (coldStart st cid nv b2 ext).1.proc = st.proc
    ∨ (∃ pid d, (coldStart st cid nv b2 ext).1.proc =
        some { pid := pid, alive := true, wsDir := d,
               log := [.initReq, .initNotif, .user b2] })
    ∨ (∃ pid d, (coldStart st cid nv b2 ext).1.proc =
        some { pid := pid, alive := false, wsDir := d, log := [] }) := by
  unfold coldStart errorReturn
  dsimp only
  split
  · exact Or.inl rfl
  · split
    · apply coldProvision_proc_cases
    · split
      · exact Or.inl rfl
      · apply coldProvision_proc_cases

theorem inv_coldStart (st : St) (cid : String) (nv : Option JVal) (b2 : Msg)
    (ext : MsgExt) (h : InvSt st) : InvSt (coldStart st cid nv b2 ext).1 := by
  rcases coldStart_proc_cases st cid nv b2 ext with hc | ⟨pid, d, hc⟩ | ⟨pid, d, hc⟩
  · intro p hp
    rw [hc] at hp
    exact h p hp
  · intro p hp
    rw [hc] at hp
    injection hp with hp2
    rw [← hp2]
    exact ⟨Or.inr ⟨[WireMsg.user b2], rfl, by simp [isUser]⟩, by simp⟩
  · intro p hp
    rw [hc] at hp
    injection hp with hp2
    rw [← hp2]
    exact ⟨Or.inl rfl, by simp⟩

theorem inv_awsMessage (st : St) (cid : String) (body : Msg) (ext : MsgExt)
    (h : InvSt st) : InvSt (awsMessage st cid body ext).1 := by
  have hpoll := inv_pollProc ext.prevProcAlive st h
  rcases hrw : rewriteBody body with ⟨nv, b2⟩
  cases hp : pollProc ext.prevProcAlive st.proc with
  | none =>
    simp only [awsMessage, hrw, hp]
    refine inv_coldStart _ cid _ _ ext ?_
    rw [hp] at hpoll
    exact hpoll
  | some p =>
    simp only [awsMessage, hrw, hp]
    rw [hp] at hpoll
    cases ha : p.alive with
    | false =>
      simp only [ha, Bool.false_eq_true, if_false]
      exact inv_coldStart _ cid _ _ ext hpoll
    | true =>
      simp only [ha, if_true]
      intro q hq
      rw [warmRelay_proc] at hq
      injection hq with hq2
      rcases hpoll p rfl with ⟨h1, h2⟩
      have hne := h2 ha
      rw [← hq2]
      refine ⟨handshakeDiscipline_append_user p.log b2 h1 hne, fun _ => ?_⟩
      simp

theorem inv_awsConnect (st : St) (cid : String) (qp : List (String × String))
    (h : InvSt st) : InvSt (awsConnect st cid qp).1 := by
  unfold awsConnect
  split
  · exact h
  · intro p hp
    exact h p hp

theorem inv_awsDisconnect (st : St) (_h : InvSt st) :
    InvSt (awsDisconnect st).1 := by
  intro p hp
  unfold awsDisconnect at hp
  cases hq : st.proc <;> simp [hq] at hp

theorem inv_awsStep (st : St) (e : Event) (h : InvSt st) :
    InvSt (awsStep st e).1 := by
  cases e with
  | connect cid qp => exact inv_awsConnect st cid qp h
  | message cid body ext => exact inv_awsMessage st cid body ext h
  | disconnect cid => exact inv_awsDisconnect st h

theorem inv_runAux (evs : List Event) :
    ∀ st : St, InvSt st →
      InvSt (evs.foldl (fun s e => (awsStep s e).1) st) := by
  induction evs with
  | nil => intro st h; exact h
  | cons e rest ih =>
    intro st h
    exact ih _ (inv_awsStep st e h)

theorem inv_runAws (evs : List Event) : InvSt (runAws evs) :=
  inv_runAux evs initSt (by intro p hp; simp [initSt] at hp)

/-! ## Claim C1 -/

/-- The concrete persistent trace used by witnesses: a test-mode
connection followed by one message that cold-starts the child. -/
def qpTest : List (String × String) :=
  [("name", "alpha"), ("test_mode", "true"),
   ("repo_url", "https://github.com/u/r")]

/-- External behaviour for a fully successful persistent invocation. -/
def extOk : MsgExt :=
  { prevProcAlive := true, meta := .error (.valueError "unused"),
    cloneOk := true, hasRequirements := false, entryExists := true,
    spawnAlive := true, initLine := "ok", replyLine := "resp",
    postOk := true, errPostOk := true }

/-- A `ping` request with `method` and `id` but no `params`. -/
def bodyPing : Msg := .parsed [("method", .jstr "ping"), ("id", .jnum 1)]

def trColdOk : List Event := [.connect "c1" qpTest, .message "c1" bodyPing extOk]

/-- The process state produced by `trColdOk`. -/
def procColdOk : ProcState :=
  { pid := 1, alive := true, wsDir := 0,
    log := [.initReq, .initNotif,
            .user (.parsed [("method", .jstr "ping"), ("id", .jnum 1),
                            ("params", JVal.jobj [])])] }

/-- Claim C1 counterexample: the single-shot variant writes no handshake
at all.  In a successful single-shot run the only content written to the
child's stdin is the request body itself (src/lambda.py line 210:
`process.communicate(input=request_body.encode(...))` is the only stdin
write; no `initialize` request or `notifications/initialized`
notification appears anywhere in src/lambda.py).  The claim's assertion
that the handshake pair precedes the user message "in both the
persistent and the single-shot variant" is therefore false. -/
theorem c1_counterexample :
    (singleShot ssPingEvent ssExtFast).code = 200
    ∧ (singleShot ssPingEvent ssExtFast).stdinWrites = [ssPingEvent.body]
    ∧ ((singleShot ssPingEvent ssExtFast).stdinWrites.any
        (fun s => pyIn "initialize" s)) = false := by
  refine ⟨by decide, by decide, by decide⟩

/-- Claim C1 (amended): in the persistent variant the stdin log of every
live child process is either `initialize` request, then
`notifications/initialized` notification, then only user messages — the
handshake pair sent exactly once per spawned process, in that order,
before any user message — or empty, for a process that was already dead
at the first handshake write (the write raises `BrokenPipeError` and
nothing, not even a user message, is ever delivered to it).  The
single-shot variant sends no handshake: the only stdin content of any run
that reaches the spawn is the request body itself. -/
theorem c1_handshake_discipline :
    (∀ evs p, (runAws evs).proc = some p → HandshakeDiscipline p.log)
    ∧ (∀ (ev : ShotEvent) (ext : ShotExt) (nm : String) (md : Metadata)
        (zu : String),
        extractName ev = .ok nm →
        isTestMode ev.qp = true →
        testModeMeta ev.qp = md →
        cloneRepoUrl md.url = .ok zu →
        ext.cloneOk = true →
        pyLower md.lang = "python" →
        ext.entryExists = true →
        (singleShot ev ext).stdinWrites = [ev.body]) := by
  constructor
  · intro evs p hp
    exact (inv_runAws evs p hp).1
  · intro ev ext nm md zu h1 h2 h3 h4 h5 h7 h8
    exact singleShot_writes ev ext nm md zu h1 h2 h3 h4 h5 h7 h8

/-- Witness for the amended C1: on the concrete trace `trColdOk` the
stored process's log is exactly the handshake pair followed by the single
rewritten user message, and the concrete single-shot run writes only its
request body. -/
theorem c1_handshake_discipline_witness :
    (runAws trColdOk).proc = some procColdOk
    ∧ HandshakeDiscipline procColdOk.log
    ∧ (singleShot ssPingEvent ssExtFast).stdinWrites = [ssPingEvent.body] :=
  ⟨rfl,
   c1_handshake_discipline.1 trColdOk procColdOk rfl,
   c1_handshake_discipline.2 ssPingEvent ssExtFast "alpha"
     (testModeMeta ssPingEvent.qp)
     "https://github.com/u/r/archive/refs/heads/main.zip"
     (by decide) (by decide) rfl (by decide) rfl (by decide) rfl⟩

/-! ## Claim C5 -/

/-- Claim C5 counterexample: the single-shot variant forwards the body
unchanged — the `params: \x7b\x7d` rewrite exists only in the persistent
variant.  The exact spec round-trip body
`\x7b"jsonrpc":"2.0","id":1,"method":"ping"\x7d` (a JSON object with
`method` and `id` but no `params`) is written to the child's stdin
verbatim, with no "params" substring anywhere in the forwarded content
(src/lambda.py lines 48-53 and 210 pass `event["body"]` straight to
`communicate`). -/
theorem c5_counterexample :
    pyIn "method" ssPingEvent.body = true
    ∧ pyIn "\"id\"" ssPingEvent.body = true
    ∧ pyIn "params" ssPingEvent.body = false
    ∧ (singleShot ssPingEvent ssExtFast).stdinWrites = [ssPingEvent.body]
    ∧ ((singleShot ssPingEvent ssExtFast).stdinWrites.any
        (fun s => pyIn "params" s)) = false := by
  refine ⟨by decide, by decide, by decide, by decide, by decide⟩

/-- Claim C5 (amended): in the persistent variant, every relayed message
that is a JSON object with `method` and `id` but no `params` is forwarded
to the child's stdin as that object with `_mcp_name` stripped and
`"params": \x7b\x7d` appended; the single-shot variant applies no rewrite
and forwards the raw body unchanged (src/aws/lambda.py lines 82-93 and
148; src/lambda.py line 210). -/
theorem c5_params_rewrite :
    (∀ (st : St) (cid : String) (p : ProcState)
        (fields : List (String × JVal)) (ext : MsgExt),
        st.proc = some p →
        p.alive = true →
        ext.prevProcAlive = true →
        hasKeyB fields "method" = true →
        hasKeyB fields "id" = true →
        hasKeyB fields "params" = false →
        (awsMessage st cid (.parsed fields) ext).1.proc =
          some { p with log := p.log ++
            [WireMsg.user (.parsed (eraseKey fields "_mcp_name"
              ++ [("params", JVal.jobj [])]))] })
    ∧ (∀ (ev : ShotEvent) (ext : ShotExt) (nm : String) (md : Metadata)
        (zu : String),
        extractName ev = .ok nm →
        isTestMode ev.qp = true →
        testModeMeta ev.qp = md →
        cloneRepoUrl md.url = .ok zu →
        ext.cloneOk = true →
        pyLower md.lang = "python" →
        ext.entryExists = true →
        (singleShot ev ext).stdinWrites = [ev.body]) := by
  constructor
  · intro st cid p fields ext hproc halive hprev hm hi hpa
    have hmm : hasKeyB (eraseKey fields "_mcp_name") "method" = true := by
      rw [hasKeyB_eraseKey_ne fields "method" "_mcp_name" (by decide)]
      exact hm
    have hii : hasKeyB (eraseKey fields "_mcp_name") "id" = true := by
      rw [hasKeyB_eraseKey_ne fields "id" "_mcp_name" (by decide)]
      exact hi
    have hpp : hasKeyB (eraseKey fields "_mcp_name") "params" = false := by
      rw [hasKeyB_eraseKey_ne fields "params" "_mcp_name" (by decide)]
      exact hpa
    have hrw : rewriteBody (.parsed fields) =
        (lookupKey fields "_mcp_name",
         .parsed (eraseKey fields "_mcp_name" ++ [("params", JVal.jobj [])])) := by
      simp only [rewriteBody]
      rw [rewriteBody_fields1]
      simp [hmm, hii, hpp]
    have hpoll2 : pollProc ext.prevProcAlive st.proc =
        some { p with alive := true } := by
      rw [hproc]
      simp [pollProc, halive, hprev]
    simp [awsMessage, hrw, hpoll2, warmRelay_proc, halive]
  · intro ev ext nm md zu h1 h2 h3 h4 h5 h7 h8
    exact singleShot_writes ev ext nm md zu h1 h2 h3 h4 h5 h7 h8

/-- Witness for the amended C5: on the concrete warm state produced by
`trColdOk`, relaying `bodyPing` appends exactly the rewritten message to
the child's stdin log, and the concrete single-shot run forwards its body
unchanged. -/
theorem c5_params_rewrite_witness :
    (awsMessage (runAws trColdOk) "c1" bodyPing extOk).1.proc =
      some { procColdOk with log := procColdOk.log ++
        [WireMsg.user (.parsed [("method", .jstr "ping"), ("id", .jnum 1),
                                ("params", JVal.jobj [])])] }
    ∧ (singleShot ssPingEvent ssExtFast).stdinWrites = [ssPingEvent.body] := by
  constructor
  · have h := c5_params_rewrite.1 (runAws trColdOk) "c1" procColdOk
      [("method", .jstr "ping"), ("id", .jnum 1)] extOk rfl rfl rfl
      (by decide) (by decide) (by decide)
    exact h
  · exact c5_params_rewrite.2 ssPingEvent ssExtFast "alpha"
      (testModeMeta ssPingEvent.qp)
      "https://github.com/u/r/archive/refs/heads/main.zip"
      (by decide) (by decide) rfl (by decide) rfl (by decide) rfl

/-! ## Claim C3 -/

/-- A session in which the child dies after a successful cold start, a
second message triggers a cold restart (overwriting `_repo_dir` and
leaking workspace 0), and the connection then disconnects.  Teardown
removes only the current workspace (2); workspace 0 stays on disk
forever. -/
def trLeak : List Event :=
  [.connect "c1" qpTest, .message "c1" bodyPing extOk,
   .message "c1" bodyPing { extOk with prevProcAlive := false },
   .disconnect "c1"]

/-- Claim C3 counterexample: after a full teardown of session `c1` — the
disconnect handler ran, killed the process and removed the current
workspace — the session's first workspace tree (id 0) is still present on
the filesystem.  It was orphaned at src/aws/lambda.py line 119, where a
cold restart overwrites `_repo_dir` without removing the previous tree;
`handle_disconnect` (lines 60-72) removes only the tree `_repo_dir`
currently points to.  (Error paths behave the same way: the `except`
handler at lines 165-187 sends an envelope and returns without deleting
anything.)  So the workspace directory tree is not "fully absent from the
filesystem after session teardown". -/
theorem c3_counterexample :
    (runAws trLeak).proc = none
    ∧ (runAws trLeak).repoDir = none
    ∧ (runAws trLeak).fs = [0] :=
  ⟨rfl, rfl, rfl⟩

/-- Claim C3 (amended): only the disconnect teardown removes a workspace,
and it removes only the workspace `_repo_dir` currently points to (with
its whole parent temp tree): after a disconnect event the current
process is gone and the current workspace tree is absent from the
filesystem.  Workspaces orphaned by a cold restart, and workspaces left
behind by failure paths (which perform no cleanup), are not removed. -/
theorem c3_disconnect_cleanup (st : St) (cid : String) :
    ((awsStep st (Event.disconnect cid)).1).proc = none
    ∧ ∀ d, st.repoDir = some d →
        d ∉ ((awsStep st (Event.disconnect cid)).1).fs := by
  constructor
  · cases hp : st.proc <;> cases hr : st.repoDir <;>
      simp [awsStep, awsDisconnect, hp, hr]
  · intro d hd
    cases hp : st.proc <;>
      ( simp only [awsStep, awsDisconnect, hp, hd]
        by_cases hm : d ∈ st.fs
        · simp [hm, List.mem_filter]
        · simp [hm] )

/-- Witness for the amended C3: disconnecting the session produced by
`trColdOk` (whose `_repo_dir` is workspace 0) leaves no process and
removes workspace 0 from the filesystem. -/
theorem c3_disconnect_cleanup_witness :
    ((awsStep (runAws trColdOk) (Event.disconnect "c1")).1).proc = none
    ∧ 0 ∉ ((awsStep (runAws trColdOk) (Event.disconnect "c1")).1).fs :=
  ⟨(c3_disconnect_cleanup (runAws trColdOk) "c1").1,
   (c3_disconnect_cleanup (runAws trColdOk) "c1").2 0 rfl⟩

/-! ## Claim C4 -/

/-- Claim C4 counterexample: a disconnect does not remove the
connection's Session Registry entry.  `handle_disconnect`
(src/aws/lambda.py lines 60-72) kills the process and removes the
workspace but never touches `_connection_params`, so after connect +
disconnect the entry for "c1" is still in the table. -/
theorem c4_counterexample :
    (runAws [.connect "c1" qpTest, .disconnect "c1"]).connectionParams
      = [("c1", qpTest)]
    ∧ (runAws [.connect "c1" qpTest, .disconnect "c1"]).proc = none :=
  ⟨rfl, rfl⟩

/-- Claim C4 (amended): the worker holds at most one live ServerProcess
overall — a single module global shared by every connection, not one per
session key — and a disconnect event kills that process and removes the
current workspace, but leaves the connection's `_connection_params`
entry in place. -/
theorem c4_disconnect_registry (st : St) (cid : String) :
    ((awsStep st (Event.disconnect cid)).1).proc = none
    ∧ ((awsStep st (Event.disconnect cid)).1).connectionParams
        = st.connectionParams := by
  cases hp : st.proc <;> cases hr : st.repoDir <;>
    constructor <;>
      simp [awsStep, awsDisconnect, hp, hr]

/-! ## Claim C6 -/

/-- Claim C6 counterexample: the handshake never fails on a missing
response line.  With the child's stdout closed immediately
(`readline` returns "" — the empty `initLine`), `handle_message`
(src/aws/lambda.py lines 139-141) just decodes, strips and prints the
empty string: no exception is raised, no `HandshakeFailure` exists
anywhere in the code, the notification and then the user message are
still written to the child, and the call returns 200 with the relayed
reply.  This falsifies both halves of the claim. -/
theorem c6_counterexample :
    (awsStep (runAws [.connect "c1" qpTest])
        (.message "c1" bodyPing { extOk with initLine := "" })).2
      = { code := 200, sent := [.reply "resp"] }
    ∧ (awsStep (runAws [.connect "c1" qpTest])
        (.message "c1" bodyPing { extOk with initLine := "" })).1.proc
      = some procColdOk :=
  ⟨rfl, rfl⟩

/-- Claim C6 (amended): the handshake accepts the absence of a response
line silently.  The cold-start pipeline never inspects the line read
back from the child (`initLine` does not occur in the control flow at
all): whatever `readline` returned — including the empty string of an
immediately-closed stream — the notification and the user message are
still written to the child's stdin and the call succeeds. -/
theorem c6_empty_init_line_accepted (st : St) (md : Metadata) (b2 : Msg)
    (ext : MsgExt) (zu : String)
    (hcl : cloneRepoUrl md.url = .ok zu)
    (hok : ext.cloneOk = true)
    (hreq : ext.hasRequirements = false)
    (hlang : pyLower md.lang = "python")
    (hent : ext.entryExists = true)
    (hsp : ext.spawnAlive = true)
    (hpost : ext.postOk = true)
    (_hinit : ext.initLine = "") :
    (coldProvision st md b2 ext).2 =
      { code := 200, sent := [.reply ext.replyLine] }
    ∧ (coldProvision st md b2 ext).1.proc =
        some { pid := st.nextId + 1, alive := true, wsDir := st.nextId,
               log := [.initReq, .initNotif, .user b2] } := by
  unfold coldProvision errorReturn
  split
  case _ reason heq => rw [heq] at hcl; cases hcl
  case _ zipUrl heq =>
    rw [hok, hreq, hent, hsp, hpost]
    dsimp only
    rw [if_neg (show ¬ pyLower md.lang ≠ "python" from fun hne => hne hlang)]
    exact ⟨rfl, rfl⟩

/-- Witness for the amended C6 at the concrete state after `.connect`:
with an empty handshake response line the call still returns 200 and the
child's log carries the handshake pair plus the user message. -/
theorem c6_empty_init_line_accepted_witness :
    (coldProvision (runAws [.connect "c1" qpTest]) (testModeMeta qpTest)
        bodyPing { extOk with initLine := "" }).2
      = { code := 200, sent := [.reply "resp"] }
    ∧ (coldProvision (runAws [.connect "c1" qpTest]) (testModeMeta qpTest)
        bodyPing { extOk with initLine := "" }).1.proc
      = some { pid := 1, alive := true, wsDir := 0,
               log := [.initReq, .initNotif, .user bodyPing] } :=
  c6_empty_init_line_accepted (runAws [.connect "c1" qpTest])
    (testModeMeta qpTest) bodyPing { extOk with initLine := "" }
    "https://github.com/u/r/archive/refs/heads/main.zip"
    (by decide) rfl rfl (by decide) rfl rfl rfl rfl

/-! ## Claim C8 -/

/-- Connection parameters selecting a Ruby descriptor in test mode. -/
def qpRuby : List (String × String) :=
  [("name", "alpha"), ("test_mode", "true"),
   ("repo_url", "https://github.com/u/r"), ("lang", "ruby")]

/-- External behaviour with a `requirements.txt` present, so the
dependency install runs. -/
def extReq : MsgExt := { extOk with hasRequirements := true }

/-- Claim C8 counterexample: a descriptor whose language is "ruby" is
not rejected before provisioning.  The cold start clones the repository
(workspace 0 is materialized on disk) and runs the pip install
(`installDeps` effect) first, and only then `start_server` raises
`ValueError: Unsupported language: ruby` (src/aws/lambda.py lines
119-122 run `clone_repo` and `install_deps` before `start_server`'s
language check at line 192; src/lambda.py lines 43-48 order the same
calls before `run_server`'s check at line 185). -/
theorem c8_counterexample :
    (awsStep (runAws [.connect "c1" qpRuby]) (.message "c1" bodyPing extReq)).2
      = { code := 500,
          sent := [.errEnvelope "ValueError" "Unsupported language: ruby"] }
    ∧ (awsStep (runAws [.connect "c1" qpRuby])
        (.message "c1" bodyPing extReq)).1.fs = [0]
    ∧ (awsStep (runAws [.connect "c1" qpRuby])
        (.message "c1" bodyPing extReq)).1.effects
      = [.cloneCall "https://github.com/u/r",
         .fetchZip "https://github.com/u/r/archive/refs/heads/main.zip",
         .installDeps]
    ∧ (awsStep (runAws [.connect "c1" qpRuby])
        (.message "c1" bodyPing extReq)).1.proc = none :=
  ⟨rfl, rfl, rfl, rfl⟩

/-- Claim C8 (amended): an unsupported language is rejected only at
spawn time, after provisioning: the workspace has been materialized
(`fs` gains the new tree, `_repo_dir` points at it), the dependency
install has been attempted, no child process is spawned, and the call
fails with the unsupported-language `ValueError`. -/
theorem c8_late_language_rejection (st : St) (md : Metadata) (b2 : Msg)
    (ext : MsgExt) (zu : String)
    (hcl : cloneRepoUrl md.url = .ok zu)
    (hok : ext.cloneOk = true)
    (hreq : ext.hasRequirements = true)
    (herr : ext.errPostOk = true)
    (hlang : pyLower md.lang ≠ "python") :
    (coldProvision st md b2 ext).2 =
      { code := 500,
        sent := [.errEnvelope "ValueError" ("Unsupported language: " ++ md.lang)] }
    ∧ (coldProvision st md b2 ext).1.proc = st.proc
    ∧ (coldProvision st md b2 ext).1.fs = st.fs ++ [st.nextId]
    ∧ (coldProvision st md b2 ext).1.repoDir = some st.nextId
    ∧ Eff.installDeps ∈ (coldProvision st md b2 ext).1.effects := by
  unfold coldProvision errorReturn
  split
  case _ reason heq => rw [heq] at hcl; cases hcl
  case _ zipUrl heq =>
    rw [hok, hreq, herr]
    dsimp only
    rw [if_pos hlang]
    refine ⟨rfl, rfl, rfl, rfl, ?_⟩
    simp

/-- Witness for the amended C8 on the state after connecting with the
Ruby test-mode parameters. -/
theorem c8_late_language_rejection_witness :
    (coldProvision (runAws [.connect "c1" qpRuby]) (testModeMeta qpRuby)
        bodyPing extReq).2
      = { code := 500,
          sent := [.errEnvelope "ValueError" "Unsupported language: ruby"] }
    ∧ Eff.installDeps ∈ (coldProvision (runAws [.connect "c1" qpRuby])
        (testModeMeta qpRuby) bodyPing extReq).1.effects :=
  have h := c8_late_language_rejection (runAws [.connect "c1" qpRuby])
    (testModeMeta qpRuby) bodyPing extReq
    "https://github.com/u/r/archive/refs/heads/main.zip"
    (by decide) rfl rfl rfl (by decide)
  ⟨h.1, h.2.2.2.2⟩

/-! ## Claim C9 -/

def qpName : List (String × String) := [("name", "alpha")]

/-- A message carrying an in-band `_mcp_name` whose value is the empty
string, alongside `method` and `id`. -/
def bodyEmptyName : Msg :=
  .parsed [("_mcp_name", .jstr ""), ("method", .jstr "ping"), ("id", .jnum 1)]

/-- The S3 fetch fails, so the run stops right after the metadata lookup
— which is the observation point for which name was used. -/
def extFetchFail : MsgExt :=
  { extOk with
      meta := .error (.fileNotFoundError "MCP definition not found in S3: alpha.json") }

/-- Claim C9 counterexample: an in-band `_mcp_name` that is present but
empty does not take precedence.  The message carries
`"_mcp_name": ""` and the connection supplied `name=alpha`; the cold
start resolves the name through `if not mcp_name:` (src/aws/lambda.py
line 101), a truthiness test, not a presence test — so the metadata
fetch uses the connection-level name "alpha", not the in-band value. -/
theorem c9_counterexample :
    hasKeyB [("_mcp_name", JVal.jstr ""), ("method", JVal.jstr "ping"),
             ("id", JVal.jnum 1)] "_mcp_name" = true
    ∧ (awsStep (runAws [.connect "c1" qpName])
        (.message "c1" bodyEmptyName extFetchFail)).1.effects
      = [.fetchMetaConn (some "alpha")]
    ∧ (awsStep (runAws [.connect "c1" qpName])
        (.message "c1" bodyEmptyName extFetchFail)).2
      = { code := 500,
          sent := [.errEnvelope "FileNotFoundError"
            "MCP definition not found in S3: alpha.json"] } :=
  ⟨rfl, rfl, rfl⟩

/-- Claim C9 (amended): an in-band `_mcp_name` takes precedence over the
connection-time `name` for cold start only when its value is truthy
(e.g. a non-empty string) — a present-but-falsy value falls back to the
connection parameters — and the field is always stripped from the
message before it is forwarded to the child process. -/
theorem c9_inband_precedence :
    (∀ (st : St) (cid : String) (body : Msg) (ext : MsgExt) (v : JVal)
        (b2 : Msg) (e : PyErr),
        st.proc = none →
        rewriteBody body = (some v, b2) →
        jTruthy v = true →
        isTestMode ((cpLookup st.connectionParams cid).getD []) = false →
        ext.meta = .error e →
        (awsMessage st cid body ext).1.effects =
          st.effects ++ [Eff.fetchMetaInband v])
    ∧ (∀ fields, hasKeyB (msgFieldsOf (rewriteBody (.parsed fields)).2)
        "_mcp_name" = false) := by
  constructor
  · intro st cid body ext v b2 e h0 hb htr ht hm
    simp only [awsMessage, hb, h0, pollProc]
    unfold coldStart
    simp only [resolveName, htr, if_true, ht, hm, errorReturn]
    simp
  · intro fields
    simp only [rewriteBody, msgFieldsOf]
    rw [rewriteBody_fields1]
    split
    · rw [hasKeyB_append, hasKeyB_eraseKey_self]
      decide
    · exact hasKeyB_eraseKey_self fields "_mcp_name"

/-- Witness for the amended C9: a truthy in-band name "beta" wins over
the connection-level "alpha" (the metadata fetch effect records the
in-band value), and stripping holds on the concrete field list. -/
theorem c9_inband_precedence_witness :
    (awsMessage (runAws [.connect "c1" qpName]) "c1"
        (.parsed [("_mcp_name", .jstr "beta"), ("method", .jstr "ping"),
                  ("id", .jnum 1)]) extFetchFail).1.effects
      = [Eff.fetchMetaInband (.jstr "beta")]
    ∧ hasKeyB (msgFieldsOf (rewriteBody (.parsed
        [("_mcp_name", JVal.jstr "beta"), ("method", JVal.jstr "ping"),
         ("id", JVal.jnum 1)])).2) "_mcp_name" = false :=
  ⟨c9_inband_precedence.1 (runAws [.connect "c1" qpName]) "c1"
      (.parsed [("_mcp_name", .jstr "beta"), ("method", .jstr "ping"),
                ("id", .jnum 1)]) extFetchFail (.jstr "beta")
      (.parsed [("method", .jstr "ping"), ("id", .jnum 1),
                ("params", JVal.jobj [])])
      (.fileNotFoundError "MCP definition not found in S3: alpha.json")
      rfl rfl (by decide) rfl rfl,
   c9_inband_precedence.2
     [("_mcp_name", JVal.jstr "beta"), ("method", JVal.jstr "ping"),
      ("id", JVal.jnum 1)]⟩

/-- Witness for C10 at a location with trailing slashes and ".git" inside
a path segment: the ".git" occurrence is deleted from the middle of the
name, showing the mangling the claim describes. -/
theorem c10_clone_url_witness :
    pyIn "github.com" "https://github.com/u/my.gitrepo/" = true
    ∧ cloneRepoUrl "https://github.com/u/my.gitrepo/" =
        .ok "https://github.com/u/myrepo/archive/refs/heads/main.zip" := by
  constructor
  · decide
  · have := (c10_clone_url "https://github.com/u/my.gitrepo/").1 (by decide)
    rw [this]
    congr 1

end SuperBox
